import Mathlib

/-!
Verification development for the task-flow-manager repository.

The definitions below are a shallow embedding of the repository's core:
the database schema and row-level-security policies (the SQL migration),
the task-mutation logic of `src/hooks/useTasks.ts`, and the client
session machine of `src/contexts/AuthContext.tsx`.  Timestamps (ISO
strings produced by `new Date().toISOString()` or SQL `now()`) are
modelled as `Nat` instants; uuids as `String`.
-/

namespace TaskFlow

/-- Role enum `app_role` from the SQL migration: 'admin' | 'department_head' | 'employee'. -/
inductive AppRole where
  | admin
  | department_head
  | employee
deriving DecidableEq, Repr, BEq

/-- Priority enum `task_priority`: 'low' | 'medium' | 'high' | 'urgent'. -/
inductive TaskPriority where
  | low
  | medium
  | high
  | urgent
deriving DecidableEq, Repr, BEq

/-- Status enum `task_status`: 'pending' | 'in_progress' | 'completed'. -/
inductive TaskStatus where
  | pending
  | in_progress
  | completed
deriving DecidableEq, Repr, BEq

/-- Row of `public.profiles` (id references auth.users). -/
structure Profile where
  id : String
  email : String
  full_name : String
  created_at : Nat
  updated_at : Nat
deriving DecidableEq, Repr, BEq

/-- Row of `public.user_roles` (id is its own uuid; user_id references auth.users). -/
structure UserRole where
  id : String
  user_id : String
  role : AppRole
deriving DecidableEq, Repr, BEq

/-- Row of `public.tasks`. -/
structure Task where
  id : String
  title : String
  description : Option String
  priority : TaskPriority
  status : TaskStatus
  project_id : Option String
  assigned_to : Option String
  created_by : Option String
  due_date : Option Nat
  completed_at : Option Nat
  created_at : Nat
  updated_at : Nat
deriving DecidableEq, Repr, BEq

/-- Database state: the auth.users id list plus the three tables the
claims are about (`projects` plays no role in any claim's logic). -/
structure DB where
  users : List String
  profiles : List Profile
  user_roles : List UserRole
  tasks : List Task
deriving DecidableEq, Repr

/-- SQL `public.has_role(_user_id, _role)`: EXISTS row in user_roles with
that user_id and role. -/
def has_role (db : DB) (uid : String) (r : AppRole) : Bool :=
  db.user_roles.any (fun ur => ur.user_id == uid && ur.role == r)

/-- RLS policy "Users can update own profile": USING (id = auth.uid()). -/
def profiles_update_policy (uid : String) (p : Profile) : Bool :=
  p.id == uid

/-- RLS policy "Admins can manage all roles" (FOR ALL on user_roles):
USING has_role(auth.uid(), 'admin'). -/
def user_roles_manage_policy (db : DB) (uid : String) : Bool :=
  has_role db uid AppRole.admin

/-- RLS policy "Users can view assigned tasks or if manager/admin" (FOR
SELECT on tasks): assigned_to = auth.uid() OR has_role(dept_head) OR
has_role(admin). -/
def tasks_select_policy (db : DB) (uid : String) (t : Task) : Bool :=
  t.assigned_to == some uid
    || has_role db uid AppRole.department_head
    || has_role db uid AppRole.admin

/-- SELECT on tasks as the storage tier evaluates it: the candidate set
filtered per row by the SELECT policy. -/
def selectTasks (db : DB) (uid : String) : List Task :=
  db.tasks.filter (tasks_select_policy db uid)

/-- Error taxonomy of the storage tier as surfaced to the client. -/
inductive DBError where
  | Forbidden
  | NotFound
  | Conflict
deriving DecidableEq, Repr

/-- Partial profile update payload (the updatable columns of `profiles`;
`updated_at` is overwritten by the `update_updated_at_column` trigger). -/
structure ProfilePatch where
  email : Option String
  full_name : Option String
deriving DecidableEq, Repr

/-- Apply a profile patch to a row; the BEFORE UPDATE trigger
`update_updated_at_column` sets `updated_at = now()`. -/
def applyProfilePatch (patch : ProfilePatch) (p : Profile) (now : Nat) : Profile :=
  { p with
    email := patch.email.getD p.email
    full_name := patch.full_name.getD p.full_name
    updated_at := now }

/-- Per-row effect of `UPDATE profiles SET ... WHERE id = target` under
RLS: a row is modified only when it matches the WHERE clause and passes
the "Users can update own profile" policy. -/
def profileUpdateRow (actor target : String) (patch : ProfilePatch) (now : Nat)
    (p : Profile) : Profile :=
  if p.id == target && profiles_update_policy actor p then
    applyProfilePatch patch p now
  else p

/-- The profile-update operation: RLS filters the rows the actor may
update, so rows not owned by the actor are left untouched; no other
table is touched. -/
def updateProfile (db : DB) (actor target : String) (patch : ProfilePatch) (now : Nat) : DB :=
  { db with profiles := db.profiles.map (profileUpdateRow actor target patch now) }

/-- INSERT into user_roles: gated by "Admins can manage all roles"
(WITH CHECK has_role(auth.uid(), 'admin')); the UNIQUE (user_id, role)
constraint rejects a duplicate (user, role) pair. -/
def insertUserRole (db : DB) (actor : String) (row : UserRole) : Except DBError DB :=
  if user_roles_manage_policy db actor then
    if db.user_roles.any (fun ur => ur.user_id == row.user_id && ur.role == row.role) then
      Except.error DBError.Conflict
    else
      Except.ok { db with user_roles := db.user_roles ++ [row] }
  else Except.error DBError.Forbidden

/-- UPDATE of a user's role rows: permitted only by "Admins can manage
all roles" (the only non-SELECT policy on user_roles); a non-admin's
attempt is rejected. -/
def updateUserRole (db : DB) (actor targetUser : String) (newRole : AppRole) :
    Except DBError DB :=
  if user_roles_manage_policy db actor then
    let f := fun ur : UserRole =>
      if ur.user_id == targetUser then { ur with role := newRole } else ur
    Except.ok { db with user_roles := db.user_roles.map f }
  else Except.error DBError.Forbidden

/-- DELETE of a user's role rows: same admin-only gating. -/
def deleteUserRole (db : DB) (actor targetUser : String) : Except DBError DB :=
  if user_roles_manage_policy db actor then
    Except.ok { db with user_roles := db.user_roles.filter (fun ur => ur.user_id != targetUser) }
  else Except.error DBError.Forbidden

/-- SQL trigger `handle_new_user`, fired AFTER INSERT on auth.users: one
profile row (full_name falling back to the email when no metadata name
is given — the caller passes the resolved name) and one user_roles row
with role 'employee' are inserted atomically with the user. -/
def handle_new_user (db : DB) (uid email name roleRowId : String) (now : Nat) : DB :=
  { db with
    users := db.users ++ [uid]
    profiles := db.profiles ++ [{ id := uid, email := email, full_name := name,
                                  created_at := now, updated_at := now }]
    user_roles := db.user_roles ++ [{ id := roleRowId, user_id := uid,
                                      role := AppRole.employee }] }

/-- Number of user_roles rows held by a given user. -/
def countRoles (db : DB) (uid : String) : Nat :=
  (db.user_roles.filter (fun ur => ur.user_id == uid)).length

/-- `Partial<Task>` as passed to `updateTask` in `useTasks.ts`: each
updatable column is either absent or carries a new value (nullable
columns carry an `Option`-valued new value).  The primary key `id` is
the `eq` selector, not a patched column; `updated_at` is overwritten by
the `update_updated_at_column` trigger. -/
structure TaskPatch where
  title : Option String
  description : Option (Option String)
  priority : Option TaskPriority
  status : Option TaskStatus
  project_id : Option (Option String)
  assigned_to : Option (Option String)
  created_by : Option (Option String)
  due_date : Option (Option Nat)
  completed_at : Option (Option Nat)
  created_at : Option Nat
deriving DecidableEq, Repr

/-- The all-absent patch. -/
def emptyPatch : TaskPatch :=
  { title := none, description := none, priority := none, status := none,
    project_id := none, assigned_to := none, created_by := none,
    due_date := none, completed_at := none, created_at := none }

/-- The `updateData` computation of `updateTask` in `useTasks.ts`:
spread `taskData`, then if `taskData.status === 'completed'` set
`completed_at` to the current instant, else if `taskData.status` is
(truthily) present set `completed_at` to null. -/
def mkUpdateData (now : Nat) (p : TaskPatch) : TaskPatch :=
  match p.status with
  | some TaskStatus.completed => { p with completed_at := some (some now) }
  | some _ => { p with completed_at := some none }
  | none => p

/-- Storage-tier application of an update payload to a task row
(last-write-wins per column), with the BEFORE UPDATE trigger setting
`updated_at = now()`. -/
def applyPatch (t : Task) (p : TaskPatch) (now : Nat) : Task :=
  { t with
    title := p.title.getD t.title
    description := p.description.getD t.description
    priority := p.priority.getD t.priority
    status := p.status.getD t.status
    project_id := p.project_id.getD t.project_id
    assigned_to := p.assigned_to.getD t.assigned_to
    created_by := p.created_by.getD t.created_by
    due_date := p.due_date.getD t.due_date
    completed_at := p.completed_at.getD t.completed_at
    created_at := p.created_at.getD t.created_at
    updated_at := now }

/-- Effect of `updateTask(taskId, taskData)` on one row: the client
derives `updateData` from the patch and the store applies it. -/
def updateTaskRow (now : Nat) (p : TaskPatch) (t : Task) : Task :=
  applyPatch t (mkUpdateData now p) now

/-- `updateTask(taskId, taskData)` of `useTasks.ts`: update the rows
matching `.eq('id', taskId)` (the primary key) with the derived payload. -/
def updateTask (db : DB) (now : Nat) (taskId : String) (p : TaskPatch) : DB :=
  let f := fun t : Task => if t.id == taskId then updateTaskRow now p t else t
  { db with tasks := db.tasks.map f }

/-- Payload built by `toggleTaskComplete`: status 'completed' when the
checkbox is checked, 'pending' otherwise. -/
def togglePatch (completed : Bool) : TaskPatch :=
  { emptyPatch with
    status := some (if completed then TaskStatus.completed else TaskStatus.pending) }

/-- `toggleTaskComplete(taskId, completed)` of `useTasks.ts`: delegates
to `updateTask` with only a status field. -/
def toggleTaskComplete (db : DB) (now : Nat) (taskId : String) (completed : Bool) : DB :=
  updateTask db now taskId (togglePatch completed)

/-- Client auth state held by `AuthContext.tsx` (`user`, `session`,
`profile`, `role`, `loading`); a session is identified by its user id. -/
structure AuthState where
  user : Option String
  session : Option String
  profile : Option Profile
  role : Option AppRole
  loading : Bool
deriving DecidableEq, Repr

/-- Client state: the React state plus the set of `fetchUserData` calls
still in flight (the code never cancels one). -/
structure ClientState where
  auth : AuthState
  pending : List String
deriving DecidableEq, Repr

/-- Initial client state: all identity state null, `loading` true. -/
def initClient : ClientState :=
  { auth := { user := none, session := none, profile := none, role := none,
              loading := true },
    pending := [] }

/-- Convenience predicate `isAdmin: role === 'admin'`. -/
def stateIsAdmin (a : AuthState) : Bool :=
  a.role == some AppRole.admin

/-- Convenience predicate `isDepartmentHead: role === 'department_head'`. -/
def stateIsDepartmentHead (a : AuthState) : Bool :=
  a.role == some AppRole.department_head

/-- Convenience predicate `isEmployee: role === 'employee'`. -/
def stateIsEmployee (a : AuthState) : Bool :=
  a.role == some AppRole.employee

/-- Result application inside `fetchUserData` once `Promise.all` of the
profile query and the role query settles: `if (profileResult.data)
setProfile(...)`, `if (roleResult.data) setRole(...)`, and `finally
setLoading(false)`.  Each result is applied only when present; nothing
checks whether the session changed meanwhile. -/
def applyFetchResult (a : AuthState) (pd : Option Profile) (rd : Option AppRole) : AuthState :=
  let a1 := match pd with
    | some p => { a with profile := some p }
    | none => a
  let a2 := match rd with
    | some r => { a1 with role := some r }
    | none => a1
  { a2 with loading := false }

/-- Events driving the client: an `onAuthStateChange` notification with
its session, the settlement of an in-flight `fetchUserData`, and a call
to the context's `signOut` (carrying the auth service's network result). -/
inductive AuthEvent where
  | authChange (sess : Option String)
  | fetchSettled (uid : String) (pd : Option Profile) (rd : Option AppRole)
  | signOutCall (netErr : Option String)
deriving DecidableEq, Repr

/-- The `onAuthStateChange` handler: set session and user from the
event; with a user, schedule `fetchUserData(session.user.id)` (via
`setTimeout`, so it stays in flight); without one, clear profile and
role and stop loading.  In-flight fetches are not cancelled. -/
def onAuthChangeStep (s : ClientState) (sess : Option String) : ClientState :=
  match sess with
  | some uid =>
      let a := { s.auth with session := some uid, user := some uid }
      { auth := a, pending := s.pending ++ [uid] }
  | none =>
      let a := { s.auth with
        session := none
        user := none
        profile := none
        role := none
        loading := false }
      { auth := a, pending := s.pending }

/-- Settlement of an in-flight `fetchUserData(uid)`: the results are
applied through `applyFetchResult`; the call leaves the in-flight set. -/
def fetchSettledStep (s : ClientState) (uid : String) (pd : Option Profile)
    (rd : Option AppRole) : ClientState :=
  if uid ∈ s.pending then
    { auth := applyFetchResult s.auth pd rd, pending := s.pending.erase uid }
  else s

/-- The context's `signOut`: await `supabase.auth.signOut()` — whose
error result is ignored — then clear user, session, profile and role
unconditionally. -/
def signOutStep (s : ClientState) (netErr : Option String) : ClientState :=
  let _ := netErr
  let a := { s.auth with
    user := none
    session := none
    profile := none
    role := none }
  { auth := a, pending := s.pending }

/-- One client step per event. -/
def clientStep (s : ClientState) : AuthEvent → ClientState
  | AuthEvent.authChange sess => onAuthChangeStep s sess
  | AuthEvent.fetchSettled uid pd rd => fetchSettledStep s uid pd rd
  | AuthEvent.signOutCall netErr => signOutStep s netErr

/-- Execution of an event trace from a starting client state. -/
def runTrace (s : ClientState) (es : List AuthEvent) : ClientState :=
  es.foldl clientStep s

/-- One storage-tier transition: user creation (the auth.users INSERT
with its `handle_new_user` trigger) or one of the policy-gated mutating
operations modelled above. -/
inductive Step : DB → DB → Prop where
  | createUser (db : DB) (uid email name roleRowId : String) (now : Nat) :
      uid ∉ db.users → Step db (handle_new_user db uid email name roleRowId now)
  | profileUpdate (db : DB) (actor target : String) (patch : ProfilePatch) (now : Nat) :
      Step db (updateProfile db actor target patch now)
  | taskUpdate (db : DB) (now : Nat) (taskId : String) (p : TaskPatch) :
      Step db (updateTask db now taskId p)
  | roleInsert (db : DB) (actor : String) (row : UserRole) (db' : DB) :
      insertUserRole db actor row = Except.ok db' → Step db db'
  | roleUpdate (db : DB) (actor targetUser : String) (r : AppRole) (db' : DB) :
      updateUserRole db actor targetUser r = Except.ok db' → Step db db'
  | roleDelete (db : DB) (actor targetUser : String) (db' : DB) :
      deleteUserRole db actor targetUser = Except.ok db' → Step db db'

/-- States reachable from a given initial database. -/
inductive Reachable (init : DB) : DB → Prop where
  | refl : Reachable init init
  | tail {db db' : DB} : Reachable init db → Step db db' → Reachable init db'

/-- Deployment-style initial database: one seeded administrator (role
seeding happens out of band, with the service role bypassing RLS). -/
def adminSeedDB : DB :=
  { users := ["a"],
    profiles := [{ id := "a", email := "a@x.com", full_name := "A",
                   created_at := 0, updated_at := 0 }],
    user_roles := [{ id := "ra", user_id := "a", role := AppRole.admin }],
    tasks := [] }

/-- State after a fresh signup of user "u" on the seeded database. -/
def c4db1 : DB := handle_new_user adminSeedDB "u" "u@x.com" "U" "ru" 1

/-- Second role row the seeded admin grants to "u". -/
def c4row : UserRole := { id := "r2", user_id := "u", role := AppRole.department_head }

/-- State after the admin inserts a department_head assignment for "u"
on top of the employee assignment created at signup. -/
def c4db2 : DB := { c4db1 with user_roles := c4db1.user_roles ++ [c4row] }

/-- Concrete task assigned to employee "e". -/
def sampleTask : Task :=
  { id := "t1", title := "Review", description := none,
    priority := TaskPriority.medium, status := TaskStatus.pending,
    project_id := none, assigned_to := some "e", created_by := some "d",
    due_date := none, completed_at := none, created_at := 0, updated_at := 0 }

/-- Concrete task assigned to a different employee "b". -/
def otherTask : Task :=
  { id := "t2", title := "Audit", description := none,
    priority := TaskPriority.high, status := TaskStatus.in_progress,
    project_id := none, assigned_to := some "b", created_by := some "d",
    due_date := none, completed_at := none, created_at := 0, updated_at := 0 }

/-- Concrete database with two employees and their two tasks. -/
def sampleDB : DB :=
  { users := ["e", "b"],
    profiles := [],
    user_roles := [{ id := "re", user_id := "e", role := AppRole.employee },
                   { id := "rb", user_id := "b", role := AppRole.employee }],
    tasks := [sampleTask, otherTask] }

/-- Patch setting the status to completed and nothing else. -/
def c3patchDone : TaskPatch := { emptyPatch with status := some TaskStatus.completed }

/-- Patch setting the status to in_progress and nothing else. -/
def c3patchWork : TaskPatch := { emptyPatch with status := some TaskStatus.in_progress }

/-- Patch carrying a completed_at value but no status field. -/
def c9patch : TaskPatch := { emptyPatch with completed_at := some (some 5) }

/-- Patch carrying only a new title. -/
def titlePatch : TaskPatch := { emptyPatch with title := some "Retitled" }

/-- Profile row the slow fetch of user "u" eventually returns. -/
def c6profile : Profile :=
  { id := "u", email := "u@x.com", full_name := "U", created_at := 0, updated_at := 0 }

/-- Event trace in which the user signs out while `fetchUserData("u")`
is still in flight, and the fetch then settles late with data. -/
def c6trace : List AuthEvent :=
  [AuthEvent.authChange (some "u"),
   AuthEvent.signOutCall none,
   AuthEvent.authChange none,
   AuthEvent.fetchSettled "u" (some c6profile) (some AppRole.employee)]

/-- Client state after the sign-out-during-fetch trace. -/
def c6final : ClientState := runTrace initClient c6trace

/-- Profile row returned for user "v" while the role query returns none. -/
def c8profile : Profile :=
  { id := "v", email := "v@x.com", full_name := "V", created_at := 0, updated_at := 0 }

/-- Event trace in which the profile query succeeds and the role query
returns no row when the joint fetch settles. -/
def c8trace : List AuthEvent :=
  [AuthEvent.authChange (some "v"),
   AuthEvent.fetchSettled "v" (some c8profile) none]

/-- Client state after the partial-result trace. -/
def c8final : ClientState := runTrace initClient c8trace

/-- Applying an already-applied optional field again changes nothing. -/
theorem optGetD_getD {α : Type} (o : Option α) (a : α) : o.getD (o.getD a) = o.getD a := by
  cases o <;> rfl

/-- A successful user_roles INSERT implies the actor passed the
admin-only policy. -/
theorem insertUserRole_ok_admin {db : DB} {actor : String} {row : UserRole} {db' : DB}
    (h : insertUserRole db actor row = Except.ok db') :
    has_role db actor AppRole.admin = true := by
  unfold insertUserRole at h
  cases hpol : user_roles_manage_policy db actor with
  | true => exact hpol
  | false => rw [hpol] at h; simp at h

/-- A successful user_roles UPDATE implies the actor passed the
admin-only policy. -/
theorem updateUserRole_ok_admin {db : DB} {actor targetUser : String} {r : AppRole}
    {db' : DB} (h : updateUserRole db actor targetUser r = Except.ok db') :
    has_role db actor AppRole.admin = true := by
  unfold updateUserRole at h
  cases hpol : user_roles_manage_policy db actor with
  | true => exact hpol
  | false => rw [hpol] at h; simp at h

/-- A successful user_roles DELETE implies the actor passed the
admin-only policy. -/
theorem deleteUserRole_ok_admin {db : DB} {actor targetUser : String}
    {db' : DB} (h : deleteUserRole db actor targetUser = Except.ok db') :
    has_role db actor AppRole.admin = true := by
  unfold deleteUserRole at h
  cases hpol : user_roles_manage_policy db actor with
  | true => exact hpol
  | false => rw [hpol] at h; simp at h

/-- A profile update never touches the user_roles table. -/
theorem updateProfile_preserves_roles (db : DB) (actor target : String)
    (patch : ProfilePatch) (now : Nat) :
    (updateProfile db actor target patch now).user_roles = db.user_roles := rfl

/-- A task update never touches the user_roles table. -/
theorem updateTask_preserves_roles (db : DB) (now : Nat) (taskId : String)
    (p : TaskPatch) :
    (updateTask db now taskId p).user_roles = db.user_roles := rfl

/-- C1: a Profile update is permitted only for the profile's own actor
(the policy is exactly `id = auth.uid()`, and rows of other actors are
left untouched), a profile update never changes the user_roles table,
every successful create, update or delete of a RoleAssignment requires
the actor to resolve to admin, and a non-admin's attempt to change
their own RoleAssignment is rejected with Forbidden. -/
theorem C1_profile_role_separation :
    (∀ uid p, profiles_update_policy uid p = true ↔ p.id = uid)
    ∧ (∀ actor target patch now p, p.id ≠ actor →
        profileUpdateRow actor target patch now p = p)
    ∧ (∀ db actor target patch now,
        (updateProfile db actor target patch now).user_roles = db.user_roles)
    ∧ (∀ db actor row db', insertUserRole db actor row = Except.ok db' →
        has_role db actor AppRole.admin = true)
    ∧ (∀ db actor targetUser r db',
        updateUserRole db actor targetUser r = Except.ok db' →
        has_role db actor AppRole.admin = true)
    ∧ (∀ db actor targetUser db',
        deleteUserRole db actor targetUser = Except.ok db' →
        has_role db actor AppRole.admin = true)
    ∧ (∀ db actor r, has_role db actor AppRole.admin = false →
        updateUserRole db actor actor r = Except.error DBError.Forbidden) := by
  refine ⟨?_, ?_, ?_, ?_, ?_, ?_, ?_⟩
  · intro uid p
    simp [profiles_update_policy]
  · intro actor target patch now p hne
    simp [profileUpdateRow, profiles_update_policy, hne]
  · intro db actor target patch now
    exact updateProfile_preserves_roles db actor target patch now
  · intro db actor row db' h
    exact insertUserRole_ok_admin h
  · intro db actor targetUser r db' h
    exact updateUserRole_ok_admin h
  · intro db actor targetUser db' h
    exact deleteUserRole_ok_admin h
  · intro db actor r hadm
    simp [updateUserRole, user_roles_manage_policy, hadm]

/-- Witness for C1 at concrete inputs: employee "e" of the sample
database cannot rewrite their own RoleAssignment to admin. -/
theorem C1_profile_role_separation_witness :
    updateUserRole sampleDB "e" "e" AppRole.admin = Except.error DBError.Forbidden :=
  C1_profile_role_separation.2.2.2.2.2.2 sampleDB "e" AppRole.admin (by decide)

/-- C2: for an actor holding neither the department_head nor the admin
role, the task SELECT returns exactly the tasks assigned to that actor:
it equals the assignee filter, every returned task is assigned to the
actor, every task assigned to the actor is returned, and the result is
a sublist of the candidate set (per-row narrowing, not rejection). -/
theorem C2_employee_task_read (db : DB) (uid : String)
    (hdh : has_role db uid AppRole.department_head = false)
    (had : has_role db uid AppRole.admin = false) :
    selectTasks db uid = db.tasks.filter (fun t => t.assigned_to == some uid)
    ∧ (∀ t ∈ selectTasks db uid, t.assigned_to = some uid)
    ∧ (∀ t ∈ db.tasks, t.assigned_to = some uid → t ∈ selectTasks db uid)
    ∧ (selectTasks db uid).Sublist db.tasks := by
  have hfil : selectTasks db uid = db.tasks.filter (fun t => t.assigned_to == some uid) := by
    unfold selectTasks
    refine List.filter_congr ?_
    intro t _
    simp [tasks_select_policy, hdh, had]
  refine ⟨hfil, ?_, ?_, ?_⟩
  · intro t ht
    rw [hfil] at ht
    have := (List.mem_filter.mp ht).2
    simpa using this
  · intro t ht hass
    rw [hfil]
    exact List.mem_filter.mpr ⟨ht, by simpa using hass⟩
  · unfold selectTasks
    exact List.filter_sublist db.tasks

/-- Witness for C2 at concrete inputs: employee "e" of the sample
database reads back exactly their own task. -/
theorem C2_employee_task_read_witness :
    selectTasks sampleDB "e" = [sampleTask] := by
  have h := (C2_employee_task_read sampleDB "e" (by decide) (by decide)).1
  rw [h]
  decide

/-- C3: for every update whose patch carries a status field, the
resulting row carries that status; when it is completed the row's
completed_at is the (non-null) current instant, otherwise completed_at
is null — for every prior row state, so for all transition pairs — and
the row invariant "completed_at non-null iff status completed" holds on
the result. -/
theorem C3_completed_at_invariant (now : Nat) (p : TaskPatch) (t : Task)
    (s : TaskStatus) (hs : p.status = some s) :
    (updateTaskRow now p t).status = s
    ∧ (s = TaskStatus.completed → (updateTaskRow now p t).completed_at = some now)
    ∧ (s ≠ TaskStatus.completed → (updateTaskRow now p t).completed_at = none)
    ∧ ((updateTaskRow now p t).completed_at ≠ none
        ↔ (updateTaskRow now p t).status = TaskStatus.completed) := by
  cases s <;> simp_all [updateTaskRow, mkUpdateData, applyPatch]

/-- Witness for C3 at concrete inputs: completing the sample pending
task stamps completed_at, moving the in_progress task back clears it. -/
theorem C3_completed_at_invariant_witness :
    (updateTaskRow 3 c3patchDone sampleTask).completed_at = some 3
    ∧ (updateTaskRow 4 c3patchWork sampleTask).completed_at = none :=
  ⟨(C3_completed_at_invariant 3 c3patchDone sampleTask TaskStatus.completed rfl).2.1 rfl,
   (C3_completed_at_invariant 4 c3patchWork sampleTask TaskStatus.in_progress rfl).2.2.1
     (by decide)⟩

/-- Re-applying the same update payload to a row changes nothing. -/
theorem applyPatch_idem (t : Task) (u : TaskPatch) (now : Nat) :
    applyPatch (applyPatch t u now) u now = applyPatch t u now := by
  simp [applyPatch, optGetD_getD]

/-- An update payload never rewrites the primary key. -/
theorem applyPatch_id (t : Task) (u : TaskPatch) (now : Nat) :
    (applyPatch t u now).id = t.id := rfl

/-- C5: submitting the identical update(id, fields) operation twice in
succession (at the same instant, time being an explicit parameter of
the model) yields the same final table state as submitting it once. -/
theorem C5_update_idempotent (db : DB) (now : Nat) (taskId : String) (p : TaskPatch) :
    updateTask (updateTask db now taskId p) now taskId p = updateTask db now taskId p := by
  unfold updateTask
  simp only [List.map_map]
  refine congrArg _ ?_
  refine List.map_congr_left ?_
  intro t _
  by_cases h : t.id == taskId
  · simp only [Function.comp_apply, h, if_pos]
    have hid : (updateTaskRow now p t).id == taskId := by
      unfold updateTaskRow
      rw [applyPatch_id]
      exact h
    simp only [hid, if_pos]
    unfold updateTaskRow
    exact applyPatch_idem t (mkUpdateData now p) now
  · simp only [Function.comp_apply, h, if_neg]
    simp [h]

/-- C9 counterexample: a patch carrying completed_at but no status
field does change the row's completed_at, at the concrete sample task. -/
theorem C9_counterexample :
    c9patch.status = none
    ∧ (updateTaskRow 7 c9patch sampleTask).completed_at ≠ sampleTask.completed_at := by
  decide

/-- C9 amended: for every update whose patch carries neither a status
field nor a completed_at field, the row's completed_at is unchanged. -/
theorem C9_frame_amended (now : Nat) (p : TaskPatch) (t : Task)
    (hs : p.status = none) (hc : p.completed_at = none) :
    (updateTaskRow now p t).completed_at = t.completed_at := by
  simp [updateTaskRow, mkUpdateData, hs, applyPatch, hc]

/-- Witness for the amended C9 at concrete inputs: a title-only update
leaves the sample task's completed_at unchanged. -/
theorem C9_frame_amended_witness :
    (updateTaskRow 7 titlePatch sampleTask).completed_at = sampleTask.completed_at :=
  C9_frame_amended 7 titlePatch sampleTask rfl rfl

/-- C10: toggleTaskComplete sets the matching row's status to completed
when the checkbox is checked and to pending when unchecked — never to
in_progress — whatever the row's previous status was. -/
theorem C10_toggle_status (db : DB) (now : Nat) (taskId : String) (c : Bool)
    (i : Nat) (h1 : i < db.tasks.length)
    (h2 : i < (toggleTaskComplete db now taskId c).tasks.length)
    (hid : (db.tasks.get ⟨i, h1⟩).id = taskId) :
    ((toggleTaskComplete db now taskId c).tasks.get ⟨i, h2⟩).status
      = (if c then TaskStatus.completed else TaskStatus.pending)
    ∧ ((toggleTaskComplete db now taskId c).tasks.get ⟨i, h2⟩).status
        ≠ TaskStatus.in_progress := by
  have hmap : (toggleTaskComplete db now taskId c).tasks
      = db.tasks.map (fun t => if t.id == taskId then
          updateTaskRow now (togglePatch c) t else t) := rfl
  have hget : ((toggleTaskComplete db now taskId c).tasks.get ⟨i, h2⟩)
      = (if (db.tasks.get ⟨i, h1⟩).id == taskId then
          updateTaskRow now (togglePatch c) (db.tasks.get ⟨i, h1⟩)
        else db.tasks.get ⟨i, h1⟩) := by
    simp [hmap, List.get_eq_getElem, List.getElem_map]
  have hbeq : ((db.tasks.get ⟨i, h1⟩).id == taskId) = true := beq_iff_eq.mpr hid
  rw [hget]
  simp only [hbeq, if_pos]
  constructor
  · cases c <;> simp [updateTaskRow, mkUpdateData, togglePatch, emptyPatch, applyPatch]
  · cases c <;> simp [updateTaskRow, mkUpdateData, togglePatch, emptyPatch, applyPatch]

/-- Witness for C10 at concrete inputs: unchecking the box on the
sample task (currently pending) yields status pending. -/
theorem C10_toggle_status_witness :
    ((toggleTaskComplete sampleDB 4 "t1" false).tasks.get ⟨0, by decide⟩).status
      = TaskStatus.pending := by
  have h := (C10_toggle_status sampleDB 4 "t1" false 0 (by decide) (by decide)
    (by decide)).1
  simpa using h

/-- C4 counterexample: from a deployment state with a seeded admin, a
signup of "u" followed by the admin inserting a department_head row for
"u" reaches a state where "u" holds two RoleAssignment rows — the
schema's UNIQUE (user_id, role) does not enforce one row per actor. -/
theorem C4_counterexample :
    Reachable adminSeedDB c4db2 ∧ "u" ∈ c4db2.users ∧ countRoles c4db2 "u" = 2 := by
  refine ⟨?_, by decide, by decide⟩
  have s1 : Step adminSeedDB c4db1 :=
    Step.createUser adminSeedDB "u" "u@x.com" "U" "ru" 1 (by decide)
  have s2 : Step c4db1 c4db2 := Step.roleInsert c4db1 "a" c4row c4db2 rfl
  exact Reachable.tail (Reachable.tail Reachable.refl s1) s2

/-- C4 amended: actor creation gives the fresh actor exactly one
RoleAssignment row, with role employee; every successful create, update
or delete of a RoleAssignment requires an admin actor; and no profile
or task operation touches the RoleAssignment store.  (Admin role
management itself can add or remove rows, so "exactly one at all
times" is not enforced beyond creation.) -/
theorem C4_role_creation_amended :
    (∀ db uid email name rid now, countRoles db uid = 0 →
      countRoles (handle_new_user db uid email name rid now) uid = 1
      ∧ (∀ ur ∈ (handle_new_user db uid email name rid now).user_roles,
          ur.user_id = uid → ur.role = AppRole.employee))
    ∧ (∀ db actor row db', insertUserRole db actor row = Except.ok db' →
        has_role db actor AppRole.admin = true)
    ∧ (∀ db actor targetUser r db',
        updateUserRole db actor targetUser r = Except.ok db' →
        has_role db actor AppRole.admin = true)
    ∧ (∀ db actor targetUser db',
        deleteUserRole db actor targetUser = Except.ok db' →
        has_role db actor AppRole.admin = true)
    ∧ (∀ db actor target patch now,
        (updateProfile db actor target patch now).user_roles = db.user_roles)
    ∧ (∀ db now taskId p, (updateTask db now taskId p).user_roles = db.user_roles) := by
  refine ⟨?_, ?_, ?_, ?_, ?_, ?_⟩
  · intro db uid email name rid now h0
    constructor
    · simp only [countRoles, handle_new_user, List.filter_append] at h0 ⊢
      simp [h0, List.length_eq_zero.mp h0]
    · intro ur hmem huid
      simp only [handle_new_user, List.mem_append] at hmem
      rcases hmem with hin | hnew
      · exfalso
        have hnil : db.user_roles.filter (fun ur => ur.user_id == uid) = [] :=
          List.length_eq_zero.mp h0
        have := List.filter_eq_nil_iff.mp hnil ur hin
        simp [huid] at this
      · simp only [List.mem_singleton] at hnew
        rw [hnew]
  · intro db actor row db' h
    exact insertUserRole_ok_admin h
  · intro db actor targetUser r db' h
    exact updateUserRole_ok_admin h
  · intro db actor targetUser db' h
    exact deleteUserRole_ok_admin h
  · intro db actor target patch now
    exact updateProfile_preserves_roles db actor target patch now
  · intro db now taskId p
    exact updateTask_preserves_roles db now taskId p

/-- Witness for the amended C4 at concrete inputs: signing up "n" on
the sample database yields exactly one role row for "n". -/
theorem C4_role_creation_amended_witness :
    countRoles (handle_new_user sampleDB "n" "n@x.com" "N" "rn" 9) "n" = 1 :=
  (C4_role_creation_amended.1 sampleDB "n" "n@x.com" "N" "rn" 9 (by decide)).1

/-- C6 evaluated at the failing trace: after a sign-out fires while
fetchUserData("u") is in flight, the late settlement still applies the
stale profile and role — the final state has no session yet a non-null
profile and role, instead of remaining fully unauthenticated. -/
theorem C6_stale_fetch_applied :
    c6final.auth.session = none ∧ c6final.auth.user = none
    ∧ c6final.auth.profile = some c6profile
    ∧ c6final.auth.role = some AppRole.employee := by decide

/-- C7: a signOut call clears user, session, profile and role
regardless of the auth service's network result. -/
theorem C7_signout_clears_locally (s : ClientState) (netErr : Option String) :
    (clientStep s (AuthEvent.signOutCall netErr)).auth.user = none
    ∧ (clientStep s (AuthEvent.signOutCall netErr)).auth.session = none
    ∧ (clientStep s (AuthEvent.signOutCall netErr)).auth.profile = none
    ∧ (clientStep s (AuthEvent.signOutCall netErr)).auth.role = none :=
  ⟨rfl, rfl, rfl, rfl⟩

/-- C8 counterexample: when the joint fetch settles with profile data
but no role row, the profile is applied alone — the reachable final
state has a profile set while the role is absent. -/
theorem C8_counterexample :
    c8final.auth.session = some "v"
    ∧ c8final.auth.profile = some c8profile
    ∧ c8final.auth.role = none := by decide

/-- C8 amended: fetch results are applied only when the joint fetch
settles (a settlement for a call not in flight changes nothing); the
role is never set except to a fetched role value, so on a fetch failure
a previously null role stays null and none of the derived predicates
isAdmin, isDepartmentHead, isEmployee is true; but a present profile
result is applied even when the role result is absent. -/
theorem C8_fetch_application_amended (a : AuthState) (pd : Option Profile)
    (rd : Option AppRole) :
    (rd = none → (applyFetchResult a pd rd).role = a.role)
    ∧ (∀ r, (applyFetchResult a pd rd).role = some r → rd = some r ∨ a.role = some r)
    ∧ (pd = none → (applyFetchResult a pd rd).profile = a.profile)
    ∧ (a.role = none → rd = none →
        stateIsAdmin (applyFetchResult a pd rd) = false
        ∧ stateIsDepartmentHead (applyFetchResult a pd rd) = false
        ∧ stateIsEmployee (applyFetchResult a pd rd) = false)
    ∧ (∀ s uid pd2 rd2, uid ∉ s.pending → fetchSettledStep s uid pd2 rd2 = s) := by
  refine ⟨?_, ?_, ?_, ?_, ?_⟩
  · intro hrd
    cases pd <;> simp [applyFetchResult, hrd]
  · intro r hr
    cases pd <;> cases rd <;> simp_all [applyFetchResult]
  · intro hpd
    cases rd <;> simp [applyFetchResult, hpd]
  · intro ha hrd
    cases pd <;>
      simp [applyFetchResult, hrd, stateIsAdmin, stateIsDepartmentHead,
        stateIsEmployee, ha]
  · intro s uid pd2 rd2 hnin
    simp [fetchSettledStep, hnin]

/-- Witness for the amended C8 at concrete inputs: a profile-only
settlement on the fresh client grants no admin capability. -/
theorem C8_fetch_application_amended_witness :
    stateIsAdmin (applyFetchResult initClient.auth (some c8profile) none) = false :=
  ((C8_fetch_application_amended initClient.auth (some c8profile) none).2.2.2.1
    rfl rfl).1

end TaskFlow
